import Mathlib

/-!
Shallow embedding of the LISP/Scheme interpreter in `src/lab.py`.

Conventions of the embedding:
* Python strings are Lean `String`; iteration over the characters of a
  source string is a fold over `String.data`.
* Python exceptions are the error type `Err`.  The three interpreter
  exception classes from scheme_utils (SchemeSyntaxError, SchemeNameError,
  SchemeEvaluationError) get their own constructors; uncaught host-level
  Python exceptions (IndexError, ZeroDivisionError, TypeError, ValueError,
  RecursionError) are modelled by separate constructors so that a claim
  about "fails with an interpreter error" is distinguishable from a claim
  about "escapes as a host exception".
* Python heap mutation of Frame objects is modelled by an explicit store:
  a list of frame records addressed by index; every evaluator function
  threads the store.
* Unbounded Python recursion is modelled with a fuel parameter; running
  out of fuel is the host RecursionError.  Nothing in the claims depends
  on the exact fuel accounting; concrete runs use generous fuel.
* Python floats are modelled as exact rationals; no claim computes with
  float rounding.
-/

namespace Lab

/-- Error kinds: the three scheme_utils exception classes, plus the host
Python exceptions that can escape the interpreter uncaught. -/
inductive Err where
  | schemeSyntaxError
  | schemeNameError
  | schemeEvaluationError
  | indexError
  | zeroDivisionError
  | typeError
  | valueError
  | recursionError
  deriving DecidableEq, Repr

/-- Parsed expression trees, as produced by `parse` in lab.py: Python ints,
floats, strings (symbols) and nested lists. -/
inductive Expr where
  | int (n : Int)
  | float (q : Rat)
  | sym (s : String)
  | list (es : List Expr)
  deriving Repr

/-- Tokenizer state: the `tokens`, `current_token` and `comment` variables
of the loop in `tokenize` (lab.py lines 42-71). -/
structure TokState where
  tokens : List String
  current : String
  comment : Bool
  deriving Repr

/-- One iteration of the character loop of `tokenize` (lab.py lines 45-67),
translated branch by branch. -/
def tokStep (st : TokState) (ch : Char) : TokState :=
  if st.comment then
    if ch = '\n' then { st with comment := false } else st
  else if ch = ';' then
    { st with comment := true }
  else if ch = ' ' ∨ ch = '\n' ∨ ch = '\t' then
    if st.current ≠ "" then { st with tokens := st.tokens ++ [st.current], current := "" }
    else st
  else if ch = '(' ∨ ch = ')' then
    let st' :=
      if st.current ≠ "" then { st with tokens := st.tokens ++ [st.current], current := "" }
      else st
    { st' with tokens := st'.tokens ++ [ch.toString] }
  else
    { st with current := st.current.push ch }

/-- The initial tokenizer state. -/
def tokInit : TokState := ⟨[], "", false⟩

/-- `tokenize` (lab.py lines 29-71): fold the character loop over the
source text, then flush the last open token. -/
def tokenize (source : String) : List String :=
  let st := source.data.foldl tokStep tokInit
  if st.current ≠ "" then st.tokens ++ [st.current] else st.tokens

/-- Numeric value of a digit string. -/
def digitsVal (cs : List Char) : Nat :=
  cs.foldl (fun a c => 10 * a + (c.toNat - 48)) 0

/-- Modelled from the spec: `number_or_symbol` lives in scheme_utils, which
is not under src/; section 4.2 of the spec describes it.  A token that is an
optional leading minus followed by digits is an integer; optional minus,
digits, one dot, digits is a float; anything else is a symbol holding the
token text verbatim. -/
def number_or_symbol (tok : String) : Expr :=
  let cs := tok.data
  let neg : Bool := match cs with | '-' :: _ => true | _ => false
  let body : List Char := match cs with | '-' :: rest => rest | _ => cs
  if !body.isEmpty && body.all Char.isDigit then
    let n : Int := digitsVal body
    .int (if neg then -n else n)
  else
    match body.splitOn '.' with
    | [intPart, fracPart] =>
      if !intPart.isEmpty && intPart.all Char.isDigit
          && !fracPart.isEmpty && fracPart.all Char.isDigit then
        let q : Rat := (digitsVal intPart : Rat)
          + (digitsVal fracPart : Rat) / ((10 : Rat) ^ fracPart.length)
        .float (if neg then -q else q)
      else .sym tok
    | _ => .sym tok

mutual

/-- `parse_main_paren` (lab.py lines 99-120): consume and return one
expression from the front of the token list.  The mutable Python list is
passed explicitly; the result carries the remaining tokens.  The fuel
argument bounds the recursion depth (Python would raise RecursionError). -/
def parse_main_paren : Nat → List String → Except Err (Expr × List String)
  | 0, _ => .error .recursionError
  | _ + 1, [] => .error .schemeEvaluationError
  | fuel + 1, tok :: rest =>
    if tok = "(" then
      if rest.isEmpty then .error .schemeSyntaxError
      else
        match parseSeq fuel rest with
        | .error e => .error e
        | .ok (es, rest') => .ok (.list es, rest')
    else if tok = ")" then .error .schemeSyntaxError
    else .ok (number_or_symbol tok, rest)

/-- The `while tokens[0] != ")"` loop of `parse_main_paren` (lab.py lines
109-115): collect sub-expressions until the closing parenthesis, raising
SchemeSyntaxError if the tokens run out first.  The empty-list case models
the indexing of `tokens[0]`; it is unreachable because the loop is entered
only with a nonempty token list. -/
def parseSeq : Nat → List String → Except Err (List Expr × List String)
  | 0, _ => .error .recursionError
  | _ + 1, [] => .error .indexError
  | fuel + 1, tok :: rest =>
    if tok = ")" then .ok ([], rest)
    else
      match parse_main_paren fuel (tok :: rest) with
      | .error e => .error e
      | .ok (e, rest') =>
        if rest'.isEmpty then .error .schemeSyntaxError
        else
          match parseSeq fuel rest' with
          | .error e => .error e
          | .ok (es, rest'') => .ok (e :: es, rest'')

end

/-- `parse` (lab.py lines 80-127): parse one expression and require the
token list to be fully consumed, else SchemeSyntaxError. -/
def parse (tokens : List String) : Except Err Expr :=
  match parse_main_paren (2 * tokens.length + 4) tokens with
  | .error e => .error e
  | .ok (e, rest) => if rest.isEmpty then .ok e else .error .schemeSyntaxError

/-- Names of the native procedures held in SCHEME_BUILTINS
(lab.py lines 327-348). -/
inductive BuiltinFn where
  | add | mul | sub | div
  | bnot | eq | gt | ge | lt | le
  | cons | car | cdr
  deriving DecidableEq, Repr

/-- Runtime values.  In the Python source these are the host types that can
appear as the result of `evaluate`: numbers, booleans, plain strings (the
special-form marker strings stored in SCHEME_BUILTINS), Pair cells, the
EMPTY_LIST sentinel, user Function objects and native procedures.  A
Function object stores its parameter tree, body tree and the index of its
defining frame in the store. -/
inductive Value where
  | intV (n : Int)
  | floatV (q : Rat)
  | boolV (b : Bool)
  | strV (s : String)
  | pairV (car cdr : Value)
  | emptyV
  | function (params : Expr) (body : Expr) (defining_frame : Nat)
  | builtinV (b : BuiltinFn)
  deriving Repr

/-- One Frame object (lab.py lines 355-396): a parent link and a mapping.
The parent link is an index into the store; the Python dict is an
insertion-ordered association list. -/
structure Frame where
  parent : Option Nat
  mapping : List (String × Value)
  deriving Repr

/-- The Python heap of Frame objects, addressed by index. -/
abbrev Store := List Frame

/-- Insert-or-overwrite on an association list, matching assignment into a
Python dict: an existing key keeps its position and gets the new value, a
new key is appended. -/
def assocUpdate : List (String × Value) → String → Value → List (String × Value)
  | [], k, v => [(k, v)]
  | (k', v') :: rest, k, v =>
    if k' = k then (k, v) :: rest else (k', v') :: assocUpdate rest k v

/-- First value bound to a key in an association list, like a Python dict
read. -/
def assocFind : List (String × Value) → String → Option Value
  | [], _ => none
  | (k', v') :: rest, k => if k' = k then some v' else assocFind rest k

/-- `Frame.define` (lab.py lines 367-371) on the store: mutate the mapping
of the frame at index `fid` in place; every other frame is untouched.  An
out-of-range index leaves the store unchanged (unreachable: the evaluator
only passes indices of frames it created). -/
def storeDefine (store : Store) (fid : Nat) (name : String) (v : Value) : Store :=
  match store[fid]? with
  | some fd => store.set fid { fd with mapping := assocUpdate fd.mapping name v }
  | none => store

/-- `Frame.lookup` (lab.py lines 373-383): search this frame, then the
parent chain; SchemeNameError when the chain is exhausted.  The fuel bounds
the chain walk (a cyclic chain would loop in Python); the evaluator only
builds acyclic chains, so `store.length + 1` fuel always suffices. -/
def lookupFuel : Nat → Store → Nat → String → Except Err Value
  | 0, _, _, _ => .error .recursionError
  | fuel + 1, store, fid, sym =>
    match store[fid]? with
    | none => .error .recursionError
    | some fd =>
      match assocFind fd.mapping sym with
      | some v => .ok v
      | none =>
        match fd.parent with
        | some p => lookupFuel fuel store p sym
        | none => .error .schemeNameError

/-- `Frame.lookup` with enough fuel for any acyclic chain in the store. -/
def frameLookup (store : Store) (fid : Nat) (sym : String) : Except Err Value :=
  lookupFuel (store.length + 1) store fid sym

/-- `Frame.is_defined` (lab.py lines 385-393): lookup, catching the
SchemeNameError. -/
def is_defined (store : Store) (fid : Nat) (sym : String) : Bool :=
  match frameLookup store fid sym with
  | .ok _ => true
  | .error _ => false

/-- The SCHEME_BUILTINS dict (lab.py lines 327-348), in insertion order.
The special forms map to plain marker strings; `#t` and `#f` map to the
booleans; everything else maps to a native procedure. -/
def SCHEME_BUILTINS : List (String × Value) :=
  [ ("+", .builtinV .add)
  , ("*", .builtinV .mul)
  , ("-", .builtinV .sub)
  , ("/", .builtinV .div)
  , ("define", .strV "define")
  , ("lambda", .strV "lambda")
  , ("#t", .boolV true)
  , ("#f", .boolV false)
  , ("if", .strV "if")
  , ("and", .strV "and")
  , ("or", .strV "or")
  , ("not", .builtinV .bnot)
  , ("equal?", .builtinV .eq)
  , (">", .builtinV .gt)
  , (">=", .builtinV .ge)
  , ("<", .builtinV .lt)
  , ("<=", .builtinV .le)
  , ("cons", .builtinV .cons)
  , ("car", .builtinV .car)
  , ("cdr", .builtinV .cdr) ]

/-- The keys of SCHEME_BUILTINS, for the membership test on line 167. -/
def builtinsKeys : List String := SCHEME_BUILTINS.map Prod.fst

/-- `make_initial_frame` (lab.py lines 399-408): a user global frame
(index 0) whose parent is a builtins frame (index 1) populated from
SCHEME_BUILTINS. -/
def initialStore : Store :=
  [ ⟨some 1, []⟩, ⟨none, SCHEME_BUILTINS⟩ ]

/-- A Python number: an int or a float.  Arithmetic promotes to float as
soon as one operand is a float. -/
inductive Num where
  | ival (n : Int)
  | fval (q : Rat)
  deriving Repr

/-- The rational magnitude of a number. -/
def Num.toRat : Num → Rat
  | .ival n => (n : Rat)
  | .fval q => q

/-- Is this number an int (for promotion decisions)? -/
def Num.isInt : Num → Bool
  | .ival _ => true
  | .fval _ => false

/-- Python addition on numbers: int + int stays int, otherwise float. -/
def numAdd (a b : Num) : Num :=
  match a, b with
  | .ival x, .ival y => .ival (x + y)
  | _, _ => .fval (a.toRat + b.toRat)

/-- Python multiplication on numbers. -/
def numMul (a b : Num) : Num :=
  match a, b with
  | .ival x, .ival y => .ival (x * y)
  | _, _ => .fval (a.toRat * b.toRat)

/-- Python subtraction on numbers. -/
def numSub (a b : Num) : Num :=
  match a, b with
  | .ival x, .ival y => .ival (x - y)
  | _, _ => .fval (a.toRat - b.toRat)

/-- Python unary minus on numbers. -/
def numNeg : Num → Num
  | .ival n => .ival (-n)
  | .fval q => .fval (-q)

/-- The values Python treats as numbers in arithmetic: ints, floats, and
booleans (bool is an int subclass, True is 1 and False is 0). -/
def toNum : Value → Option Num
  | .intV n => some (.ival n)
  | .floatV q => some (.fval q)
  | .boolV b => some (.ival (if b then 1 else 0))
  | _ => none

/-- A number back to a runtime value. -/
def Num.toValue : Num → Value
  | .ival n => .intV n
  | .fval q => .floatV q

/-- Python `sum` over evaluated arguments, starting from the int 0; a
non-numeric element raises TypeError. -/
def sumVals : Num → List Value → Except Err Num
  | acc, [] => .ok acc
  | acc, v :: rest =>
    match toNum v with
    | some n => sumVals (numAdd acc n) rest
    | none => .error .typeError

/-- Python `a * b` on runtime values: TypeError unless both are numbers. -/
def mulVals (a b : Value) : Except Err Value :=
  match toNum a, toNum b with
  | some x, some y => .ok (numMul x y).toValue
  | _, _ => .error .typeError

/-- `builtin_mul` (lab.py lines 241-256): one argument is returned
verbatim, two are multiplied, more recurse; zero arguments make the
unpacking `first_num, *rest_nums = args` raise a host ValueError. -/
def builtin_mul : List Value → Except Err Value
  | [] => .error .valueError
  | [v] => .ok v
  | [a, b] => mulVals a b
  | a :: rest =>
    match builtin_mul rest with
    | .error e => .error e
    | .ok r => mulVals a r

/-- The `+` builtin (lab.py line 328): `sum(args)`. -/
def builtin_add (args : List Value) : Except Err Value :=
  match sumVals (.ival 0) args with
  | .error e => .error e
  | .ok n => .ok n.toValue

/-- The `-` builtin (lab.py line 330): negate a single argument, else
subtract the sum of the rest from the first; zero arguments raise a host
TypeError (missing positional argument). -/
def builtin_sub : List Value → Except Err Value
  | [] => .error .typeError
  | [x] =>
    match toNum x with
    | some n => .ok (numNeg n).toValue
    | none => .error .typeError
  | x :: ys =>
    match sumVals (.ival 0) ys with
    | .error e => .error e
    | .ok s =>
      match toNum x with
      | some n => .ok (numSub n s).toValue
      | none => .error .typeError

/-- The `/` builtin (lab.py line 331): reciprocal of one argument, else the
first divided by `builtin_mul` of the rest.  Python true division always
yields a float; a zero divisor raises a host ZeroDivisionError, a
non-number a host TypeError.  The float result is modelled as the exact
rational. -/
def builtin_div : List Value → Except Err Value
  | [] => .error .typeError
  | [x] =>
    match toNum x with
    | some n => if n.toRat = 0 then .error .zeroDivisionError else .ok (.floatV (1 / n.toRat))
    | none => .error .typeError
  | x :: ys =>
    match builtin_mul ys with
    | .error e => .error e
    | .ok p =>
      match toNum x, toNum p with
      | some a, some b =>
        if b.toRat = 0 then .error .zeroDivisionError
        else .ok (.floatV (a.toRat / b.toRat))
      | _, _ => .error .typeError

/-- Python `==` on the runtime values `equal?` can meet.  Numbers (bools
included) compare by magnitude across int/float; strings compare as
strings.  Pair, Function and EmptyList objects compare by object identity
in Python, which a pure model cannot observe; they are modelled
structurally here, and no claim depends on them. -/
def pyEq : Value → Value → Bool
  | .pairV a c, .pairV a' c' => pyEq a a' && pyEq c c'
  | a, b =>
    match toNum a, toNum b with
    | some x, some y => x.toRat = y.toRat
    | _, _ =>
      match a, b with
      | .strV s, .strV t => s = t
      | .emptyV, .emptyV => true
      | _, _ => false

/-- A single comparison `rel(a, b)` used by `compare_helper`: numbers
(bools included) compare by magnitude, strings lexicographically, anything
else raises a host TypeError. -/
def pyCompare (numRel : Rat → Rat → Bool) (strRel : String → String → Bool)
    (a b : Value) : Except Err Bool :=
  match toNum a, toNum b with
  | some x, some y => .ok (numRel x.toRat y.toRat)
  | _, _ =>
    match a, b with
    | .strV s, .strV t => .ok (strRel s t)
    | _, _ => .error .typeError

/-- `compare_helper` (lab.py lines 258-264): the relation must hold for
every adjacent pair, tested left to right. -/
def compare_helper (numRel : Rat → Rat → Bool) (strRel : String → String → Bool) :
    List Value → Except Err Bool
  | a :: b :: rest =>
    match pyCompare numRel strRel a b with
    | .error e => .error e
    | .ok true => compare_helper numRel strRel (b :: rest)
    | .ok false => .ok false
  | _ => .ok true

/-- `check_arg_length` (lab.py lines 266-268). -/
def check_arg_length (args : List Value) (n : Nat) : Except Err Unit :=
  if args.length < n then .error .schemeEvaluationError else .ok ()

/-- `builtin_equal` (lab.py lines 271-277). -/
def builtin_equal (args : List Value) : Except Err Value :=
  match check_arg_length args 2 with
  | .error e => .error e
  | .ok _ =>
    match args with
    | [] => .ok (.boolV true)
    | first :: rest => .ok (.boolV (rest.all (fun a => pyEq a first)))

/-- `builtin_not` (lab.py lines 298-301): exactly one argument; True
exactly when the argument is the False object. -/
def builtin_not : List Value → Except Err Value
  | [v] =>
    match v with
    | .boolV false => .ok (.boolV true)
    | _ => .ok (.boolV false)
  | _ => .error .schemeEvaluationError

/-- `builtin_cons` (lab.py lines 304-307). -/
def builtin_cons : List Value → Except Err Value
  | [a, b] => .ok (.pairV a b)
  | _ => .error .schemeEvaluationError

/-- `builtin_car` (lab.py lines 310-316): SchemeEvaluationError on wrong
arity or a non-Pair argument. -/
def builtin_car : List Value → Except Err Value
  | [.pairV a _] => .ok a
  | [_] => .error .schemeEvaluationError
  | _ => .error .schemeEvaluationError

/-- `builtin_cdr` (lab.py lines 319-325). -/
def builtin_cdr : List Value → Except Err Value
  | [.pairV _ d] => .ok d
  | [_] => .error .schemeEvaluationError
  | _ => .error .schemeEvaluationError

/-- A comparison builtin from its two relations. -/
def builtin_compare (numRel : Rat → Rat → Bool) (strRel : String → String → Bool)
    (args : List Value) : Except Err Value :=
  match check_arg_length args 2 with
  | .error e => .error e
  | .ok _ =>
    match compare_helper numRel strRel args with
    | .error e => .error e
    | .ok b => .ok (.boolV b)

/-- Dispatch a native procedure on an evaluated argument list. -/
def applyBuiltin : BuiltinFn → List Value → Except Err Value
  | .add, args => builtin_add args
  | .mul, args => builtin_mul args
  | .sub, args => builtin_sub args
  | .div, args => builtin_div args
  | .bnot, args => builtin_not args
  | .eq, args => builtin_equal args
  | .gt, args => builtin_compare (fun a b => decide (b < a)) (fun s t => decide (t < s)) args
  | .ge, args => builtin_compare (fun a b => decide (b ≤ a)) (fun s t => decide (t < s) || decide (t = s)) args
  | .lt, args => builtin_compare (fun a b => decide (a < b)) (fun s t => decide (s < t)) args
  | .le, args => builtin_compare (fun a b => decide (a ≤ b)) (fun s t => decide (s < t) || decide (s = t)) args
  | .cons, args => builtin_cons args
  | .car, args => builtin_car args
  | .cdr, args => builtin_cdr args

/-- Bind one key expression in the frame at `fid`, as
`frame.define(key, value)` does with a tree node as the dict key.  A symbol
binds normally.  A numeric key succeeds in Python but can never be read
back, because lookups only ever use string keys; it is modelled as a no-op.
A list key is unhashable and raises a host TypeError. -/
def defineKey (store : Store) (fid : Nat) (key : Expr) (v : Value) : Except Err Store :=
  match key with
  | .sym s => .ok (storeDefine store fid s v)
  | .int _ => .ok store
  | .float _ => .ok store
  | .list _ => .error .typeError

/-- The parameter sequence a Function iterates in `__call__`
(`len(self.parameters)` and `zip(self.parameters, args)`).  A list gives
its elements; a string (symbol) gives its one-character substrings, since
Python len and zip act on the characters; a number has no len and raises a
host TypeError. -/
def paramNames : Expr → Except Err (List Expr)
  | .list ps => .ok ps
  | .sym s => .ok (s.data.map (fun c => Expr.sym (String.mk [c])))
  | .int _ => .error .typeError
  | .float _ => .error .typeError

/-- The `for param, arg in zip(...)` loop of `Function.__call__`
(lab.py lines 430-431): define each parameter in the new frame, stopping at
the shorter list as zip does. -/
def bindParams : Store → Nat → List Expr → List Value → Except Err Store
  | store, _, [], _ => .ok store
  | store, _, _ :: _, [] => .ok store
  | store, fid, p :: ps, a :: as =>
    match defineKey store fid p a with
    | .error e => .error e
    | .ok store' => bindParams store' fid ps as

mutual

/-- `evaluate` (lab.py lines 136-232), with the Frame heap made explicit:
`evaluate fuel tree fid store` evaluates `tree` in the frame at index
`fid`, returning the value and the updated store.  Fuel exhaustion models
the host RecursionError on unboundedly deep recursion. -/
def evaluate : Nat → Expr → Nat → Store → Except Err (Value × Store)
  | 0, _, _, _ => .error .recursionError
  | fuel + 1, tree, fid, store =>
    match tree with
    | .int n => .ok (.intV n, store)
    | .float q => .ok (.floatV q, store)
    | .sym s =>
      if is_defined store fid s then
        match frameLookup store fid s with
        | .ok v => .ok (v, store)
        | .error e => .error e
      else .error .schemeNameError
    | .list es =>
      match es with
      | [] => .error .indexError
      | e0 :: rest =>
        let headCheck : Except Err Unit :=
          match e0 with
          | .int _ => .error .schemeEvaluationError
          | .float _ => .error .schemeEvaluationError
          | .sym s =>
            if builtinsKeys.contains s || is_defined store fid s then .ok ()
            else .error .schemeNameError
          | .list _ => .ok ()
        match headCheck with
        | .error e => .error e
        | .ok _ =>
          match evaluate fuel e0 fid store with
          | .error e => .error e
          | .ok (oper, s1) =>
            match oper with
            | .strV "if" =>
              match rest with
              | [p, tcode, fcode] =>
                match evaluate fuel p fid s1 with
                | .error e => .error e
                | .ok (pv, s2) =>
                  match pv with
                  | .boolV false => evaluate fuel fcode fid s2
                  | _ => evaluate fuel tcode fid s2
              | _ => .error .schemeEvaluationError
            | .strV "and" => evalAnd fuel rest fid s1
            | .strV "or" => evalOr fuel rest fid s1
            | .strV "define" => evalDefine fuel rest fid s1
            | .strV "lambda" =>
              match rest with
              | [] => .error .schemeEvaluationError
              | [_] => .error .indexError
              | p :: b :: _ => .ok (.function p b fid, s1)
            | _ =>
              match evalArgs fuel rest fid s1 with
              | .error e => .error e
              | .ok (argVals, s2) =>
                match applyProc fuel oper argVals s2 with
                | .error .typeError => .error .schemeEvaluationError
                | r => r
termination_by structural fuel => fuel

/-- The `and` loop (lab.py lines 185-191): left to right, stop with False
on the first value that is the False object, else True. -/
def evalAnd : Nat → List Expr → Nat → Store → Except Err (Value × Store)
  | 0, _, _, _ => .error .recursionError
  | _ + 1, [], _, store => .ok (.boolV true, store)
  | fuel + 1, e :: es, fid, store =>
    match evaluate fuel e fid store with
    | .error err => .error err
    | .ok (v, s1) =>
      match v with
      | .boolV false => .ok (.boolV false, s1)
      | _ => evalAnd fuel es fid s1
termination_by structural fuel => fuel

/-- The `or` loop (lab.py lines 193-198): left to right, stop with True on
the first value that is the True object, else False. -/
def evalOr : Nat → List Expr → Nat → Store → Except Err (Value × Store)
  | 0, _, _, _ => .error .recursionError
  | _ + 1, [], _, store => .ok (.boolV false, store)
  | fuel + 1, e :: es, fid, store =>
    match evaluate fuel e fid store with
    | .error err => .error err
    | .ok (v, s1) =>
      match v with
      | .boolV true => .ok (.boolV true, s1)
      | _ => evalOr fuel es fid s1
termination_by structural fuel => fuel

/-- The `define` branch (lab.py lines 200-219), on the trailing parts of
the form.  A list target is the function-definition sugar; an atom target
binds the value, which is evaluated first unless it is a number literal
(numbers evaluate to themselves, so the result is the same either way). -/
def evalDefine : Nat → List Expr → Nat → Store → Except Err (Value × Store)
  | 0, _, _, _ => .error .recursionError
  | fuel + 1, args, fid, store =>
    match args with
    | var :: val :: _ =>
      match var with
      | .list l =>
        match l with
        | [] => .error .indexError
        | fname :: ps =>
          let fn : Value := .function (.list ps) val fid
          match defineKey store fid fname fn with
          | .error e => .error e
          | .ok s2 => .ok (fn, s2)
      | _ =>
        match (match val with
               | .int n => Except.ok ((Value.intV n : Value), store)
               | .float q => .ok (.floatV q, store)
               | _ => evaluate fuel val fid store) with
        | .error e => .error e
        | .ok (v, s2) =>
          match defineKey s2 fid var v with
          | .error e => .error e
          | .ok s3 => .ok (v, s3)
    | _ => .error .schemeEvaluationError
termination_by structural fuel => fuel

/-- The argument list comprehension on lab.py line 228: evaluate every
operand left to right, threading the store. -/
def evalArgs : Nat → List Expr → Nat → Store → Except Err (List Value × Store)
  | 0, _, _, _ => .error .recursionError
  | _ + 1, [], _, store => .ok ([], store)
  | fuel + 1, e :: es, fid, store =>
    match evaluate fuel e fid store with
    | .error err => .error err
    | .ok (v, s1) =>
      match evalArgs fuel es fid s1 with
      | .error err => .error err
      | .ok (vs, s2) => .ok (v :: vs, s2)
termination_by structural fuel => fuel

/-- `oper(*args)` on lab.py line 230.  A Function runs `Function.__call__`
(lab.py lines 424-433): check the arity, create one new child frame whose
parent is the defining frame of the closure, bind the parameters, and
evaluate the body there.  A native procedure dispatches into the builtin
library.  Any other value is not callable and raises a host TypeError,
which the caller converts (the `except TypeError` on line 231). -/
def applyProc : Nat → Value → List Value → Store → Except Err (Value × Store)
  | 0, _, _, _ => .error .recursionError
  | fuel + 1, oper, args, store =>
    match oper with
    | .function params body cfid =>
      match paramNames params with
      | .error e => .error e
      | .ok ps =>
        if args.length ≠ ps.length then .error .schemeEvaluationError
        else
          match bindParams (store ++ [⟨some cfid, []⟩]) store.length ps args with
          | .error e => .error e
          | .ok s2 => evaluate fuel body store.length s2
    | .builtinV b =>
      match applyBuiltin b args with
      | .error e => .error e
      | .ok v => .ok (v, store)
    | _ => .error .typeError
termination_by structural fuel => fuel

end

/-- Evaluate a sequence of top-level forms the way the driver does: each in
turn, in the global frame, returning the value of the last. -/
def runSeq : Nat → List Expr → Nat → Store → Except Err (Value × Store)
  | _, [], _, _ => .error .indexError
  | fuel, [e], fid, store => evaluate fuel e fid store
  | fuel, e :: rest, fid, store =>
    match evaluate fuel e fid store with
    | .error err => .error err
    | .ok (_, s1) => runSeq fuel rest fid s1

/-- Just the value of an evaluation, discarding the final store. -/
def resultOf (r : Except Err (Value × Store)) : Except Err Value :=
  r.map Prod.fst

/-- The tree of `(define (f x) (lambda () x))`. -/
def defFExpr : Expr :=
  .list [.sym "define", .list [.sym "f", .sym "x"],
         .list [.sym "lambda", .list [], .sym "x"]]

/-- The tree of `(define x 100)`. -/
def defX100Expr : Expr := .list [.sym "define", .sym "x", .int 100]

/-- The tree of `((f 1))`. -/
def callFFExpr : Expr := .list [.list [.sym "f", .int 1]]

/-- The tree of `(if 1 2 nope)`, where `nope` is an unbound symbol: as a
conditional this returns 2 without ever touching `nope`. -/
def ifProbeExpr : Expr := .list [.sym "if", .int 1, .int 2, .sym "nope"]

/-- The mapping a fresh call frame holds after the parameter-binding loop:
each name is bound in order to its positional argument, later duplicates
overwriting earlier ones. -/
def mappingOf : List String → List Value → List (String × Value) → List (String × Value)
  | n :: ns, a :: as, m => mappingOf ns as (assocUpdate m n a)
  | _, _, m => m

end Lab

namespace Lab

/-- C2: evaluating `(or 5)` from the initial frame.  The `or` loop tests
`val is True`, so the non-boolean truthy operand 5 does not stop it and the
form returns the False object — the claim says it must return true. -/
theorem or_five_returns_false :
    evaluate 30 (.list [.sym "or", .int 5]) 0 initialStore
      = .ok (.boolV false, initialStore) := by
  rfl

/-- C3: evaluating `(/ 1 0)` from the initial frame raises the host
ZeroDivisionError, not a SchemeEvaluationError: the `except TypeError` on
lab.py line 231 does not catch it. -/
theorem div_one_zero_host_exception :
    evaluate 30 (.list [.sym "/", .int 1, .int 0]) 0 initialStore
      = .error .zeroDivisionError := by
  rfl

/-- C5: evaluating the empty combination `()` reaches the unguarded
`tree[0]` on lab.py line 162 and escapes as a host IndexError, not as one
of the declared interpreter error kinds. -/
theorem empty_combination_host_index_error :
    evaluate 30 (.list []) 0 initialStore = .error .indexError := by
  rfl

/-- C6: the `lambda` guard is `len(tree) < 2`, so `(lambda (x))` passes it
and `tree[2]` escapes as a host IndexError; a bare `(lambda)` does raise
the SchemeEvaluationError; and `(lambda (x) x 7)`, with three trailing
parts, is silently accepted as a closure over the current frame. -/
theorem lambda_missing_body_host_index_error :
    evaluate 30 (.list [.sym "lambda", .list [.sym "x"]]) 0 initialStore
        = .error .indexError
    ∧ evaluate 30 (.list [.sym "lambda"]) 0 initialStore
        = .error .schemeEvaluationError
    ∧ evaluate 30 (.list [.sym "lambda", .list [.sym "x"], .sym "x", .int 7]) 0 initialStore
        = .ok (.function (.list [.sym "x"]) (.sym "x") 0, initialStore) := by
  exact ⟨rfl, rfl, rfl⟩

/-- C7: parsing `tokenize("(+ 1 2")` fails with SchemeSyntaxError (tokens
exhausted before the closing paren), as does `tokenize("(")` (nothing after
the opening paren) and `tokenize("+ 1 2)")` (tokens remaining after one
complete top-level expression); the well-formed `tokenize("(+ 1 2)")`
parses. -/
theorem parse_syntax_errors :
    parse (tokenize "(+ 1 2") = .error .schemeSyntaxError
    ∧ parse (tokenize "(") = .error .schemeSyntaxError
    ∧ parse (tokenize "+ 1 2)") = .error .schemeSyntaxError
    ∧ parse (tokenize "(+ 1 2)") = .ok (.list [.sym "+", .int 1, .int 2]) := by
  exact ⟨rfl, rfl, rfl, rfl⟩

/-- C10: special forms are dispatched on the value of the evaluated head.
The marker strings for define, lambda, if, and, or (and the booleans for
hash-t, hash-f) are ordinary bindings reachable by lookup from the global
frame; `(if 1 2 nope)` is a conditional and returns 2 without touching the
unbound `nope`; after `(define if 0)` the same form stops being a
conditional and dies with a SchemeNameError evaluating `nope` as an
argument; and a user alias `(define myif if)` makes `(myif #f 1 2)` behave
as the conditional. -/
theorem special_forms_dispatch_by_value :
    frameLookup initialStore 0 "define" = .ok (.strV "define")
    ∧ frameLookup initialStore 0 "lambda" = .ok (.strV "lambda")
    ∧ frameLookup initialStore 0 "if" = .ok (.strV "if")
    ∧ frameLookup initialStore 0 "and" = .ok (.strV "and")
    ∧ frameLookup initialStore 0 "or" = .ok (.strV "or")
    ∧ frameLookup initialStore 0 "#t" = .ok (.boolV true)
    ∧ frameLookup initialStore 0 "#f" = .ok (.boolV false)
    ∧ resultOf (runSeq 30 [ifProbeExpr] 0 initialStore) = .ok (.intV 2)
    ∧ runSeq 30 [.list [.sym "define", .sym "if", .int 0], ifProbeExpr] 0 initialStore
        = .error .schemeNameError
    ∧ resultOf (runSeq 30
        [ .list [.sym "define", .sym "myif", .sym "if"]
        , .list [.sym "myif", .sym "#f", .int 1, .int 2] ] 0 initialStore)
        = .ok (.intV 2) := by
  exact ⟨rfl, rfl, rfl, rfl, rfl, rfl, rfl, rfl, rfl, rfl⟩

/-- C9: `Frame.define` mutates only the mapping of the frame it is called
on: every other frame of the store — parent frames and the builtins frame
at the root included — is unchanged, and the target frame gets exactly the
insert-or-overwrite on its own mapping; so shadowing a builtin name in the
user global frame never alters the builtin table. -/
theorem define_mutates_only_current_frame (store : Store) (fid j : Nat)
    (name : String) (v : Value) (h : j ≠ fid) :
    (storeDefine store fid name v)[j]? = store[j]?
    ∧ (storeDefine store fid name v)[fid]?
        = (store[fid]?).map (fun fd => { fd with mapping := assocUpdate fd.mapping name v }) := by
  unfold storeDefine
  cases hst : store[fid]? with
  | none => exact ⟨rfl, by simp [hst]⟩
  | some fd =>
    refine ⟨List.getElem?_set_ne (Ne.symm h), ?_⟩
    have hlt : fid < store.length := by
      by_contra hge
      rw [List.getElem?_eq_none (Nat.le_of_not_lt hge)] at hst
      exact Option.noConfusion hst
    rw [List.getElem?_set_eq_of_lt _ hlt]
    rfl

/-- Witness for C9: shadowing the builtin `car` in the user global frame of
the initial two-tier store leaves the builtins frame record untouched and
rewrites exactly the global mapping. -/
theorem define_mutates_only_current_frame_witness :
    (storeDefine initialStore 0 "car" (.intV 7))[1]? = initialStore[1]?
    ∧ (storeDefine initialStore 0 "car" (.intV 7))[0]?
        = (initialStore[0]?).map
            (fun fd => { fd with mapping := assocUpdate fd.mapping "car" (.intV 7) }) :=
  define_mutates_only_current_frame initialStore 0 1 "car" (.intV 7) (by decide)

/-- Setting the slot of the frame just appended at the end of the store
replaces only that frame. -/
theorem set_concat (store : Store) (fd fd' : Frame) :
    (store ++ [fd]).set store.length fd' = store ++ [fd'] := by
  induction store with
  | nil => rfl
  | cons a rest ih => simp [ih]

/-- `Frame.define` on the frame just appended at the end of the store. -/
theorem storeDefine_concat (store : Store) (p : Option Nat)
    (m : List (String × Value)) (n : String) (v : Value) :
    storeDefine (store ++ [⟨p, m⟩]) store.length n v
      = store ++ [⟨p, assocUpdate m n v⟩] := by
  unfold storeDefine
  rw [List.getElem?_concat_length]
  exact set_concat store _ _

/-- The parameter-binding loop of `Function.__call__`, run on the frame
just appended to the store with all-symbol parameters, is `mappingOf`. -/
theorem bindParams_syms (store : Store) (p : Option Nat)
    (m : List (String × Value)) (names : List String) (args : List Value) :
    bindParams (store ++ [⟨p, m⟩]) store.length (names.map Expr.sym) args
      = .ok (store ++ [⟨p, mappingOf names args m⟩]) := by
  induction names generalizing m args with
  | nil => cases args <;> rfl
  | cons n ns ih =>
    cases args with
    | nil => rfl
    | cons a as =>
      have h0 : bindParams (store ++ [⟨p, m⟩]) store.length
            (Expr.sym n :: ns.map Expr.sym) (a :: as)
          = bindParams (storeDefine (store ++ [⟨p, m⟩]) store.length n a)
              store.length (ns.map Expr.sym) as := rfl
      simp only [List.map_cons]
      rw [h0, storeDefine_concat]
      exact ih (assocUpdate m n a) as

/-- C1: applying a Function whose argument count equals its parameter
count appends exactly one new frame to the store, parented to the captured
defining frame of the closure (`Function.__call__` never even receives the
frame of the caller), binds each parameter to its positional argument
there, and evaluates the stored body in that frame; concretely, after
`(define (f x) (lambda () x))` and a global redefinition `(define x 100)`,
the call `((f 1))` still returns 1 through the captured frame. -/
theorem closure_application_lexical (fuel : Nat) (names : List String)
    (body : Expr) (cfid : Nat) (args : List Value) (store : Store)
    (h : args.length = names.length) :
    applyProc (fuel + 1) (.function (.list (names.map Expr.sym)) body cfid) args store
      = evaluate fuel body store.length (store ++ [⟨some cfid, mappingOf names args []⟩])
    ∧ resultOf (runSeq 30 [defFExpr, defX100Expr, callFFExpr] 0 initialStore)
      = .ok (.intV 1) := by
  refine ⟨?_, rfl⟩
  have h0 : applyProc (fuel + 1) (.function (.list (names.map Expr.sym)) body cfid) args store
      = (if args.length ≠ (names.map Expr.sym).length then
           Except.error Err.schemeEvaluationError
         else
           (match bindParams (store ++ [⟨some cfid, []⟩]) store.length
               (names.map Expr.sym) args with
            | Except.error e => Except.error e
            | Except.ok s2 =>
              evaluate fuel body store.length s2 : Except Err (Value × Store))) := rfl
  rw [h0, bindParams_syms store (some cfid) [] names args]
  simp only [List.length_map, h, ne_eq, not_true_eq_false, if_false]

/-- Witness for C1: a one-parameter closure applied to one argument. -/
theorem closure_application_lexical_witness :
    applyProc 6 (.function (.list (["a"].map Expr.sym)) (.sym "a") 1) [.intV 9] initialStore
      = evaluate 5 (.sym "a") initialStore.length
          (initialStore ++ [⟨some 1, mappingOf ["a"] [.intV 9] []⟩])
    ∧ resultOf (runSeq 30 [defFExpr, defX100Expr, callFFExpr] 0 initialStore)
      = .ok (.intV 1) :=
  closure_application_lexical 5 ["a"] (.sym "a") 1 [.intV 9] initialStore rfl

/-- Evaluating a combination whose head is the symbol `define`, in a frame
where that symbol still resolves to its marker string, dispatches into the
define branch. -/
theorem define_dispatch (fuel fid : Nat) (store : Store) (rest : List Expr)
    (h1 : frameLookup store fid "define" = .ok (.strV "define")) :
    evaluate (fuel + 1) (.list (.sym "define" :: rest)) fid store
      = evalDefine fuel rest fid store := by
  have hd : is_defined store fid "define" = true := by
    unfold is_defined
    rw [h1]
  cases fuel with
  | zero => rfl
  | succ m =>
    have hc : builtinsKeys.contains "define" = true := rfl
    have hhead : evaluate (m + 1) (.sym "define") fid store
        = .ok (.strV "define", store) := by
      have h0 : evaluate (m + 1) (.sym "define") fid store
          = (if is_defined store fid "define" then
               (match frameLookup store fid "define" with
                | .ok v => Except.ok (v, store)
                | .error e => .error e : Except Err (Value × Store))
             else .error .schemeNameError) := rfl
      rw [h0, hd, h1]
      rfl
    rw [evaluate.eq_def]
    simp only [hc, Bool.true_or, hhead]
    rfl

/-- The define branch on a symbol target: evaluate the value expression,
bind the result under the symbol in the active frame, and return it.  The
number-literal shortcut of the source (a raw int or float is not passed
through `evaluate`) is covered by the same statement, because a number
literal evaluates to itself without touching the store. -/
theorem evalDefine_sym (fuel fid : Nat) (store s' : Store) (name : String)
    (valExpr : Expr) (v : Value)
    (h2 : evaluate fuel valExpr fid store = .ok (v, s')) :
    evalDefine (fuel + 1) [.sym name, valExpr] fid store
      = .ok (v, storeDefine s' fid name v) := by
  cases valExpr with
  | int n =>
    cases fuel with
    | zero => exact absurd h2 (by intro hx; exact Except.noConfusion hx)
    | succ m =>
      have hx : v = .intV n ∧ s' = store := by
        have := h2
        rw [show evaluate (m + 1) (.int n) fid store = .ok (.intV n, store) from rfl] at this
        cases this
        exact ⟨rfl, rfl⟩
      rw [hx.1, hx.2]
      rfl
  | float q =>
    cases fuel with
    | zero => exact absurd h2 (by intro hx; exact Except.noConfusion hx)
    | succ m =>
      have hx : v = .floatV q ∧ s' = store := by
        have := h2
        rw [show evaluate (m + 1) (.float q) fid store = .ok (.floatV q, store) from rfl] at this
        cases this
        exact ⟨rfl, rfl⟩
      rw [hx.1, hx.2]
      rfl
  | sym s =>
    have h0 : evalDefine (fuel + 1) [.sym name, .sym s] fid store
        = (match evaluate fuel (.sym s) fid store with
           | .error e => .error e
           | .ok (v', s2) =>
             (match defineKey s2 fid (.sym name) v' with
              | .error e => .error e
              | .ok s3 => Except.ok (v', s3) : Except Err (Value × Store))) := rfl
    rw [h0, h2]
    rfl
  | list l =>
    have h0 : evalDefine (fuel + 1) [.sym name, .list l] fid store
        = (match evaluate fuel (.list l) fid store with
           | .error e => .error e
           | .ok (v', s2) =>
             (match defineKey s2 fid (.sym name) v' with
              | .error e => .error e
              | .ok s3 => Except.ok (v', s3) : Except Err (Value × Store))) := rfl
    rw [h0, h2]
    rfl

/-- C4: with `define` resolving to its marker (as in the initial frame),
`(define <symbol> <expr>)` evaluates the value expression in the active
frame, binds the resulting value to the symbol in the active frame, and
returns that value — uniformly in the shape of the value expression, since
the number literals the source skips re-evaluating evaluate to themselves;
concretely `(define x 5)` returns 5 and a following `(+ x 1)` returns 6. -/
theorem define_evaluates_binds_returns (fuel fid : Nat) (store s' : Store)
    (name : String) (valExpr : Expr) (v : Value)
    (h1 : frameLookup store fid "define" = .ok (.strV "define"))
    (h2 : evaluate fuel valExpr fid store = .ok (v, s')) :
    evaluate (fuel + 2) (.list [.sym "define", .sym name, valExpr]) fid store
      = .ok (v, storeDefine s' fid name v)
    ∧ resultOf (runSeq 30 [.list [.sym "define", .sym "x", .int 5]] 0 initialStore)
      = .ok (.intV 5)
    ∧ resultOf (runSeq 30
        [ .list [.sym "define", .sym "x", .int 5]
        , .list [.sym "+", .sym "x", .int 1] ] 0 initialStore)
      = .ok (.intV 6) := by
  refine ⟨?_, rfl, rfl⟩
  rw [define_dispatch (fuel + 1) fid store [.sym name, valExpr] h1]
  exact evalDefine_sym fuel fid store s' name valExpr v h2

/-- Witness for C4: defining `y` to the compound `(+ 2 3)` in the initial
frame binds and returns 5. -/
theorem define_evaluates_binds_returns_witness :
    evaluate 12 (.list [.sym "define", .sym "y", .list [.sym "+", .int 2, .int 3]]) 0 initialStore
      = .ok (.intV 5, storeDefine initialStore 0 "y" (.intV 5))
    ∧ resultOf (runSeq 30 [.list [.sym "define", .sym "x", .int 5]] 0 initialStore)
      = .ok (.intV 5)
    ∧ resultOf (runSeq 30
        [ .list [.sym "define", .sym "x", .int 5]
        , .list [.sym "+", .sym "x", .int 1] ] 0 initialStore)
      = .ok (.intV 6) :=
  define_evaluates_binds_returns 10 0 initialStore initialStore "y"
    (.list [.sym "+", .int 2, .int 3]) (.intV 5) rfl rfl

/-- In comment mode, every character other than a newline leaves the
tokenizer state completely untouched. -/
theorem foldl_tokStep_comment (st : TokState) (c : List Char)
    (hst : st.comment = true) (hc : '\n' ∉ c) :
    c.foldl tokStep st = st := by
  induction c with
  | nil => rfl
  | cons ch rest ih =>
    have hch : ¬ch = '\n' := fun h => hc (h ▸ List.mem_cons_self ch rest)
    have h1 : tokStep st ch = st := by
      simp [tokStep, hst, hch]
    rw [List.foldl_cons, h1]
    exact ih (fun h => hc (List.mem_cons_of_mem ch h))

/-- From a state not inside a comment, a semicolon, a newline-free comment
body and the terminating newline are consumed with no effect at all on the
state: in particular a token open before the semicolon stays open. -/
theorem foldl_tokStep_skips_comment (st : TokState) (c s2 : List Char)
    (hst : st.comment = false) (hc : '\n' ∉ c) :
    List.foldl tokStep st (';' :: (c ++ '\n' :: s2)) = List.foldl tokStep st s2 := by
  rw [List.foldl_cons]
  have h1 : tokStep st ';' = { st with comment := true } := by
    simp [tokStep, hst]
  rw [h1, List.foldl_append,
      foldl_tokStep_comment { st with comment := true } c rfl hc,
      List.foldl_cons]
  have h2 : tokStep { st with comment := true } '\n' = st := by
    cases st with
    | mk tks cur com =>
      simp only at hst
      simp [tokStep, hst]
  rw [h2]

/-- C8 counterexample: the claim says `tokenize "ab;c\ncd"` is
`["ab", "cd"]`, but the code produces `["abcd"]` — the newline that ends
the comment is consumed inside the comment branch and never terminates the
token accumulated before the semicolon. -/
theorem tokenize_comment_counterexample :
    tokenize "ab;c\ncd" = ["abcd"] ∧ tokenize "ab;c\ncd" ≠ ["ab", "cd"] := by
  exact ⟨rfl, by decide⟩

/-- C8 amended: a semicolon comment extends through and includes the next
newline — the newline is consumed by the comment branch, so it does not
act as whitespace, and a token being accumulated before the semicolon
continues accumulating after the comment; dropping the comment together
with its terminating newline never changes the output (whenever the
semicolon is met outside a comment); in particular
tokenize of the text ab;c then newline then cd is ["abcd"]. -/
theorem comment_consumes_terminating_newline (s1 c s2 : List Char)
    (hc : '\n' ∉ c)
    (hs : (List.foldl tokStep tokInit s1).comment = false) :
    tokenize (String.mk (s1 ++ ';' :: (c ++ '\n' :: s2)))
      = tokenize (String.mk (s1 ++ s2))
    ∧ tokenize "ab;c\ncd" = ["abcd"] := by
  refine ⟨?_, rfl⟩
  show (let st := List.foldl tokStep tokInit (s1 ++ ';' :: (c ++ '\n' :: s2))
        if st.current ≠ "" then st.tokens ++ [st.current] else st.tokens)
      = (let st := List.foldl tokStep tokInit (s1 ++ s2)
         if st.current ≠ "" then st.tokens ++ [st.current] else st.tokens)
  rw [List.foldl_append, List.foldl_append,
      foldl_tokStep_skips_comment (List.foldl tokStep tokInit s1) c s2 hs hc]

/-- Witness for C8 amended: the concrete source from the claim. -/
theorem comment_consumes_terminating_newline_witness :
    tokenize (String.mk (['a', 'b'] ++ ';' :: (['c'] ++ '\n' :: ['c', 'd'])))
      = tokenize (String.mk (['a', 'b'] ++ ['c', 'd']))
    ∧ tokenize "ab;c\ncd" = ["abcd"] :=
  comment_consumes_terminating_newline ['a', 'b'] ['c'] ['c', 'd']
    (by decide) (by decide)

end Lab
